import Mathlib

/-!
# Verification of the founder-matchmaker Matching Engine

Shallow embedding of the Matching Engine of the founder-matchmaker
repository: the scoring function (`calculateMatchScore` from the
recommendations route), the interest/like endpoint (`POST /api/like`),
the messages endpoints (`GET`/`POST /api/matches/[matchId]/messages`),
the recommendations feed (`GET /api/recommendations`), and the relevant
storage-level unique constraints from `prisma/migrations/001_init`.

JavaScript semantics that matter here are modelled explicitly:
* truthiness of optional fields (`if (a && b)`): `none`, `some ""` and
  `some 0` are all falsy;
* `Math.round` rounds half toward positive infinity;
* numeric score arithmetic is carried out in ℚ (all quantities involved
  are small decimal fractions, exactly representable).
-/

namespace Matchmaker

/-! ## Profiles and the scoring function (recommendations route) -/

/-- The shape of a user record as consumed by `calculateMatchScore`
(interface `UserWithRelations` in the recommendations route): offers and
lookingFor tag lists, skill names, and optional scalar fields. -/
structure Profile where
  offers : List String
  lookingFor : List String
  skills : List String
  location : Option String
  availability : Option Int
  bio : Option String
  headline : Option String
deriving DecidableEq, Repr

/-- JavaScript truthiness of an optional string: `undefined`/`null` and
the empty string are falsy. -/
def truthyStr : Option String → Bool
  | none => false
  | some s => s ≠ ""

/-- JavaScript truthiness of an optional number: `undefined`/`null` and
`0` are falsy. -/
def truthyNum : Option Int → Bool
  | none => false
  | some n => n ≠ 0

/-- `Math.round`: round half toward positive infinity. -/
def jsRound (q : ℚ) : Int := (q + 1/2).floor

/-- `user1Offers.filter(o => user2LookingFor.includes(o)).length`. -/
def offerOverlap (user1 user2 : Profile) : Nat :=
  (user1.offers.filter (fun o => user2.lookingFor.contains o)).length

/-- `user1LookingFor.filter(l => user2Offers.includes(l)).length`. -/
def lookingForOverlap (user1 user2 : Profile) : Nat :=
  (user1.lookingFor.filter (fun l => user2.offers.contains l)).length

/-- `Math.min(40, (offerOverlap + lookingForOverlap) * 8)`. -/
def tagScore (user1 user2 : Profile) : Nat :=
  min 40 ((offerOverlap user1 user2 + lookingForOverlap user1 user2) * 8)

/-- `user1Skills.filter(s => user2Skills.includes(s)).length`. -/
def skillOverlap (user1 user2 : Profile) : Nat :=
  (user1.skills.filter (fun s => user2.skills.contains s)).length

/-- `Math.min(20, skillOverlap * 4)`. -/
def skillScore (user1 user2 : Profile) : Nat :=
  min 20 (skillOverlap user1 user2 * 4)

/-- Contribution of the location block: inside
`if (user1.location && user2.location)` the code adds 10 on exact
equality and 5 otherwise; outside the branch nothing is added. -/
def locationScore (user1 user2 : Profile) : Nat :=
  if truthyStr user1.location && truthyStr user2.location then
    (if user1.location = user2.location then 10 else 5)
  else 0

/-- Contribution of the availability block: inside
`if (user1.availability && user2.availability)` the code adds
`Math.max(0, 10 - Math.abs(a - b) / 10)`; outside the branch nothing is
added.  Note the JS truthiness guard: a present availability of `0` is
falsy and skips the block. -/
def availabilityScore (user1 user2 : Profile) : ℚ :=
  if truthyNum user1.availability && truthyNum user2.availability then
    max 0 (10 - (((user1.availability.getD 0 - user2.availability.getD 0).natAbs : ℚ) / 10))
  else 0

/-- The completeness count of the candidate: how many of
`[bio, headline, location, skills.length > 0, offers.length > 0,
lookingFor.length > 0]` are truthy (`.filter(Boolean).length`). -/
def completenessCount (user2 : Profile) : Nat :=
  (if truthyStr user2.bio then 1 else 0) +
  (if truthyStr user2.headline then 1 else 0) +
  (if truthyStr user2.location then 1 else 0) +
  (if user2.skills.length > 0 then 1 else 0) +
  (if user2.offers.length > 0 then 1 else 0) +
  (if user2.lookingFor.length > 0 then 1 else 0)

/-- `(user2Completeness / 6) * 5`. -/
def completenessScore (user2 : Profile) : ℚ :=
  ((completenessCount user2 : ℚ) / 6) * 5

/-- Literal translation of `calculateMatchScore(user1, user2)` from the
recommendations route: sequentially accumulate `score` and push reasons
inside the same branches the source does, then return
`{ score: Math.round(score), reasons: reasons.slice(0, 3) }`. -/
def calculateMatchScore (user1 user2 : Profile) : Int × List String :=
  let score : ℚ := 0
  let reasons : List String := []
  let offerOv := offerOverlap user1 user2
  let lookingOv := lookingForOverlap user1 user2
  let tagSc := min 40 ((offerOv + lookingOv) * 8)
  let score := score + tagSc
  let reasons := if offerOv > 0 then
      reasons ++ [toString offerOv ++ " matching skills/offers"] else reasons
  let skillOv := skillOverlap user1 user2
  let skillSc := min 20 (skillOv * 4)
  let score := score + skillSc
  let reasons := if skillOv > 0 then
      reasons ++ [toString skillOv ++ " shared skills"] else reasons
  let score := if truthyStr user1.location && truthyStr user2.location then
      score + (if user1.location = user2.location then 10 else 5) else score
  let reasons := if truthyStr user1.location && truthyStr user2.location then
      (if user1.location = user2.location then reasons ++ ["Same location"] else reasons)
    else reasons
  let availSc : ℚ :=
    if truthyNum user1.availability && truthyNum user2.availability then
      max 0 (10 - (((user1.availability.getD 0 - user2.availability.getD 0).natAbs : ℚ) / 10))
    else 0
  let score := score + availSc
  let reasons := if truthyNum user1.availability && truthyNum user2.availability then
      (if availSc > 7 then reasons ++ ["Similar availability"] else reasons)
    else reasons
  let complSc := completenessScore user2
  let score := score + complSc
  let reasons := if complSc > 4 then reasons ++ ["Complete profile"] else reasons
  (jsRound score, reasons.take 3)

/-- The total score before rounding, written compositionally. -/
def totalScoreQ (user1 user2 : Profile) : ℚ :=
  (tagScore user1 user2 : ℚ) + (skillScore user1 user2 : ℚ) +
    (locationScore user1 user2 : ℚ) + availabilityScore user1 user2 +
    completenessScore user2

/-- The score component of `calculateMatchScore` is the rounded
compositional total. -/
theorem calculateMatchScore_fst (user1 user2 : Profile) :
    (calculateMatchScore user1 user2).1 = jsRound (totalScoreQ user1 user2) := by
  unfold calculateMatchScore totalScoreQ tagScore skillScore locationScore availabilityScore
  dsimp only
  congr 1
  split_ifs <;> push_cast <;> ring

/-! ### Bounds of the individual scoring terms -/

theorem tagScore_le (user1 user2 : Profile) : tagScore user1 user2 ≤ 40 :=
  Nat.min_le_left _ _

theorem skillScore_le (user1 user2 : Profile) : skillScore user1 user2 ≤ 20 :=
  Nat.min_le_left _ _

theorem locationScore_le (user1 user2 : Profile) : locationScore user1 user2 ≤ 10 := by
  unfold locationScore
  split_ifs <;> omega

theorem availabilityScore_nonneg (user1 user2 : Profile) :
    0 ≤ availabilityScore user1 user2 := by
  unfold availabilityScore
  split_ifs
  · exact le_max_left _ _
  · exact le_refl _

theorem availabilityScore_le (user1 user2 : Profile) :
    availabilityScore user1 user2 ≤ 10 := by
  unfold availabilityScore
  split_ifs
  · apply max_le (by norm_num)
    have h : (0:ℚ) ≤ (((user1.availability.getD 0 - user2.availability.getD 0).natAbs : ℚ) / 10) := by
      positivity
    linarith
  · norm_num

theorem completenessCount_le (user2 : Profile) : completenessCount user2 ≤ 6 := by
  unfold completenessCount
  split_ifs <;> omega

theorem completenessScore_nonneg (user2 : Profile) : 0 ≤ completenessScore user2 := by
  unfold completenessScore
  positivity

theorem completenessScore_le (user2 : Profile) : completenessScore user2 ≤ 5 := by
  unfold completenessScore
  have h : ((completenessCount user2 : ℚ)) ≤ 6 := by
    exact_mod_cast completenessCount_le user2
  linarith

theorem totalScoreQ_nonneg (user1 user2 : Profile) : 0 ≤ totalScoreQ user1 user2 := by
  unfold totalScoreQ
  have h1 : (0:ℚ) ≤ (tagScore user1 user2 : ℚ) := by positivity
  have h2 : (0:ℚ) ≤ (skillScore user1 user2 : ℚ) := by positivity
  have h3 : (0:ℚ) ≤ (locationScore user1 user2 : ℚ) := by positivity
  have h4 := availabilityScore_nonneg user1 user2
  have h5 := completenessScore_nonneg user2
  linarith

theorem totalScoreQ_le (user1 user2 : Profile) : totalScoreQ user1 user2 ≤ 85 := by
  unfold totalScoreQ
  have h1 : ((tagScore user1 user2 : ℚ)) ≤ 40 := by exact_mod_cast tagScore_le user1 user2
  have h2 : ((skillScore user1 user2 : ℚ)) ≤ 20 := by exact_mod_cast skillScore_le user1 user2
  have h3 : ((locationScore user1 user2 : ℚ)) ≤ 10 := by
    exact_mod_cast locationScore_le user1 user2
  have h4 := availabilityScore_le user1 user2
  have h5 := completenessScore_le user2
  linarith

theorem jsRound_nonneg {q : ℚ} (h : 0 ≤ q) : 0 ≤ jsRound q := by
  unfold jsRound
  exact Rat.le_floor.mpr (by push_cast; linarith)

theorem jsRound_le {q : ℚ} {n : Int} (h : q ≤ n) : jsRound q ≤ n := by
  unfold jsRound
  by_contra hc
  push_neg at hc
  have h2 : n + 1 ≤ Rat.floor (q + 1/2) := hc
  have h3 : ((n + 1 : Int) : ℚ) ≤ q + 1/2 := Rat.le_floor.mp h2
  push_cast at h3
  linarith

/-- C6: for any two profiles the total score returned by
`calculateMatchScore` lies in [0,100], and each sub-term is within its
stated cap: tag complementarity ≤ 40, skill overlap ≤ 20, location ≤ 10,
availability alignment ≤ 10, candidate completeness ≤ 5. -/
theorem score_bounded (user1 user2 : Profile) :
    0 ≤ (calculateMatchScore user1 user2).1 ∧
    (calculateMatchScore user1 user2).1 ≤ 100 ∧
    tagScore user1 user2 ≤ 40 ∧
    skillScore user1 user2 ≤ 20 ∧
    locationScore user1 user2 ≤ 10 ∧
    availabilityScore user1 user2 ≤ 10 ∧
    completenessScore user2 ≤ 5 := by
  rw [calculateMatchScore_fst]
  refine ⟨jsRound_nonneg (totalScoreQ_nonneg user1 user2), ?_,
    tagScore_le user1 user2, skillScore_le user1 user2, locationScore_le user1 user2,
    availabilityScore_le user1 user2, completenessScore_le user2⟩
  exact jsRound_le (by have := totalScoreQ_le user1 user2; norm_num; linarith)

/-- C10: the total score never exceeds 85: the five capped terms sum to at
most 40 + 20 + 10 + 10 + 5 = 85, so scores in (85, 100] are unreachable. -/
theorem score_le_85 (user1 user2 : Profile) :
    (calculateMatchScore user1 user2).1 ≤ 85 := by
  rw [calculateMatchScore_fst]
  exact jsRound_le (by have := totalScoreQ_le user1 user2; norm_num; linarith)

/-! ### The availability term versus its specified form (C7) -/

/-- The availability-alignment term as the spec's formula states it:
computed whenever both availability values are *present*, including when a
present value equals 0. Written for comparison with `availabilityScore`,
which is the code's term. -/
def availabilitySpecTerm (user1 user2 : Profile) : ℚ :=
  match user1.availability, user2.availability with
  | some a, some b => max 0 (10 - (((a - b).natAbs : ℚ) / 10))
  | _, _ => 0

/-- A profile whose availability is present and equal to 0. -/
def pAvailZero : Profile :=
  { offers := [], lookingFor := [], skills := [], location := none,
    availability := some 0, bio := none, headline := none }

/-- C7 counterexample: with both availabilities present and equal to 0, the
code's availability term is 0 (the `user1.availability &&
user2.availability` guard treats 0 as falsy and skips the block), while the
claimed term — computed whenever both values are present — would be
max(0, 10 − 0/10) = 10. -/
theorem availability_zero_counterexample :
    availabilityScore pAvailZero pAvailZero = 0 ∧
    availabilitySpecTerm pAvailZero pAvailZero = 10 := by
  constructor
  · rfl
  · norm_num [availabilitySpecTerm, pAvailZero]

/-- C7 (amended): the availability term equals
max(0, 10 − |viewerAvailability − candidateAvailability| / 10) exactly when
both availability values are present *and nonzero* (JavaScript truthiness),
and it contributes 0 when either value is absent or equal to 0. -/
theorem availabilityScore_spec (user1 user2 : Profile) :
    (∀ a b, user1.availability = some a → user2.availability = some b →
      a ≠ 0 → b ≠ 0 →
      availabilityScore user1 user2 = max 0 (10 - (((a - b).natAbs : ℚ) / 10))) ∧
    ((user1.availability = none ∨ user1.availability = some 0 ∨
      user2.availability = none ∨ user2.availability = some 0) →
      availabilityScore user1 user2 = 0) := by
  constructor
  · intro a b h1 h2 ha hb
    unfold availabilityScore truthyNum
    rw [h1, h2]
    simp [ha, hb]
  · intro h
    unfold availabilityScore truthyNum
    rcases h with h | h | h | h <;> rw [h] <;> simp

/-- Profiles with availabilities 80 and 85. -/
def pAvail80 : Profile :=
  { offers := [], lookingFor := [], skills := [], location := none,
    availability := some 80, bio := none, headline := none }

def pAvail85 : Profile :=
  { offers := [], lookingFor := [], skills := [], location := none,
    availability := some 85, bio := none, headline := none }

theorem availabilityScore_spec_witness :
    availabilityScore pAvail80 pAvail85 =
      max 0 (10 - ((((80:Int) - 85).natAbs : ℚ) / 10)) :=
  (availabilityScore_spec pAvail80 pAvail85).1 80 85 rfl rfl
    (by decide) (by decide)

/-! ### The reasons list (C8) -/

/-- A viewer whose only tag is a lookingFor entry matched by the
candidate's offers: the complementarity term is positive while
`offerOverlap` is 0. -/
def viewerOnlySeeks : Profile :=
  { offers := [], lookingFor := ["Marketing"], skills := [], location := none,
    availability := none, bio := none, headline := none }

def candidateOnlyOffers : Profile :=
  { offers := ["Marketing"], lookingFor := [], skills := [], location := none,
    availability := none, bio := none, headline := none }

/-- C8 counterexample: the tag-complementarity term is positive (8), yet
no reason at all is emitted — the code gates the complementarity reason on
`offerOverlap > 0` (viewer's offers found in the candidate's lookingFor
only), not on the full complementarity term being positive. -/
theorem reasons_counterexample :
    0 < tagScore viewerOnlySeeks candidateOnlyOffers ∧
    (calculateMatchScore viewerOnlySeeks candidateOnlyOffers).2 = [] := by
  constructor
  · decide
  · have ho : offerOverlap viewerOnlySeeks candidateOnlyOffers = 0 := rfl
    have hs : skillOverlap viewerOnlySeeks candidateOnlyOffers = 0 := rfl
    have hc : completenessCount candidateOnlyOffers = 1 := rfl
    have hl1 : truthyStr viewerOnlySeeks.location = false := rfl
    have hn1 : truthyNum viewerOnlySeeks.availability = false := rfl
    have hcs : completenessScore candidateOnlyOffers = 5/6 := by
      rw [completenessScore, hc]; norm_num
    unfold calculateMatchScore
    dsimp only
    norm_num [ho, hs, hl1, hn1, hcs]

/-- Pushing onto a list under a condition, rewritten as appending a
conditional singleton. -/
theorem ite_append_singleton {α : Type} (c : Prop) [Decidable c] (xs : List α) (a : α) :
    (if c then xs ++ [a] else xs) = xs ++ (if c then [a] else []) := by
  split_ifs <;> simp

/-- Pushing onto a list under two nested conditions. -/
theorem ite_ite_append_singleton {α : Type} (c d : Prop) [Decidable c] [Decidable d]
    (xs : List α) (a : α) :
    (if c then (if d then xs ++ [a] else xs) else xs) =
      xs ++ (if c ∧ d then [a] else []) := by
  split_ifs <;> simp_all

/-- The location reason fires exactly when the location term is 10. -/
theorem locationScore_cond (user1 user2 : Profile) :
    ((truthyStr user1.location && truthyStr user2.location) = true ∧
      user1.location = user2.location) ↔ locationScore user1 user2 = 10 := by
  unfold locationScore
  split_ifs with h1 h2 <;> simp_all

/-- The availability reason fires exactly when the availability term
exceeds 7. -/
theorem availabilityScore_cond (user1 user2 : Profile) :
    ((truthyNum user1.availability && truthyNum user2.availability) = true ∧
      (if (truthyNum user1.availability && truthyNum user2.availability) = true then
        max 0 (10 - (((user1.availability.getD 0 - user2.availability.getD 0).natAbs : ℚ) / 10))
      else 0) > 7) ↔ 7 < availabilityScore user1 user2 := by
  unfold availabilityScore
  split_ifs with h <;> simp_all

/-- C8 (amended): the reasons list is produced by threshold checks in the
fixed priority order (complementarity, skills, location, availability,
completeness) and truncated to the first 3 — but the first check is
`offerOverlap > 0` (only the count of the viewer's offers appearing in the
candidate's lookingFor), not positivity of the full tag-complementarity
term; the remaining checks are skill overlap > 0, location term = 10,
availability term > 7, completeness term > 4, as claimed. -/
theorem reasons_characterization (user1 user2 : Profile) :
    (calculateMatchScore user1 user2).2 =
      ((if 0 < offerOverlap user1 user2 then
          [toString (offerOverlap user1 user2) ++ " matching skills/offers"] else []) ++
       (if 0 < skillOverlap user1 user2 then
          [toString (skillOverlap user1 user2) ++ " shared skills"] else []) ++
       (if locationScore user1 user2 = 10 then ["Same location"] else []) ++
       (if 7 < availabilityScore user1 user2 then ["Similar availability"] else []) ++
       (if 4 < completenessScore user2 then ["Complete profile"] else [])).take 3 := by
  unfold calculateMatchScore
  dsimp only
  simp only [ite_ite_append_singleton]
  simp only [ite_append_singleton, List.nil_append]
  simp only [locationScore_cond, availabilityScore_cond, gt_iff_lt]

/-! ## The store: likes, matches, messages (prisma-backed state) -/

/-- A row of the `likes` table as the like endpoint writes it
(`fromId`, `toId`, optional `message`). -/
structure Like where
  fromId : String
  toId : String
  message : Option String
deriving DecidableEq, Repr

/-- A row of the `matches` table: id, the two participants in storage
order (`userAId`, `userBId`), and the `active` flag (default true). -/
structure MatchRow where
  id : String
  userAId : String
  userBId : String
  active : Bool
deriving DecidableEq, Repr

/-- A row of the `messages` table. -/
structure Message where
  matchId : String
  senderId : String
  body : String
deriving DecidableEq, Repr

/-- The shared store. `users` holds existing user ids; `nextId` generates
match ids; rows are kept in insertion order. -/
structure DB where
  users : List String
  likes : List Like
  matchRows : List MatchRow
  messages : List Message
  nextId : Nat
deriving DecidableEq, Repr

/-- `prisma.like.findUnique({ where: { fromId_toId: { fromId, toId } } })`. -/
def findLike (db : DB) (f t : String) : Option Like :=
  db.likes.find? (fun l => l.fromId == f && l.toId == t)

/-- The active matches stored for the unordered pair {x, y}, in either
storage order. -/
def matchesForPair (db : DB) (x y : String) : List MatchRow :=
  db.matchRows.filter (fun m =>
    m.active && ((m.userAId == x && m.userBId == y) ||
                 (m.userAId == y && m.userBId == x)))

/-- The stored likes from `f` to `t`. -/
def likesFromTo (db : DB) (f t : String) : List Like :=
  db.likes.filter (fun l => l.fromId == f && l.toId == t)

/-- Outcome of `POST /api/like`. -/
inductive LikeResult where
  /-- 400 `Cannot like yourself`. -/
  | selfLike
  /-- 404 `User not found`. -/
  | unknownUser
  /-- 400 `Already liked this user`. -/
  | duplicateInterest
  /-- 200 with `isMatch: false`. -/
  | liked (like : Like)
  /-- 200 with `isMatch: true` and the created match. -/
  | matched (like : Like) (m : MatchRow)
deriving DecidableEq, Repr

/-- Literal translation of the `POST /api/like` handler: reject self-like,
reject unknown target, reject an existing like (fromId→toId), create the
like, then check the reverse like and, if present, create a match with
`userAId` = caller and `userBId` = target — with no check for an existing
match in either storage order and no handling of a constraint violation. -/
def expressInterest (db : DB) (fromId toId : String) (message : Option String) :
    LikeResult × DB :=
  if fromId == toId then (.selfLike, db)
  else if !(db.users.contains toId) then (.unknownUser, db)
  else if (findLike db fromId toId).isSome then (.duplicateInterest, db)
  else
    let like : Like := { fromId := fromId, toId := toId, message := message }
    let db1 : DB := { db with likes := db.likes ++ [like] }
    if (findLike db1 toId fromId).isSome then
      let m : MatchRow :=
        { id := "match-" ++ toString db1.nextId, userAId := fromId,
          userBId := toId, active := true }
      (.matched like m,
        { db1 with matchRows := db1.matchRows ++ [m], nextId := db1.nextId + 1 })
    else (.liked like, db1)

/-! ### C1: no existing-match check before creating -/

/-- C1's failing input: user Y already likes X, an active match for the
pair {X, Y} is stored as (Y, X), and X has no like toward Y. -/
def dbC1 : DB :=
  { users := ["X", "Y"],
    likes := [{ fromId := "Y", toId := "X", message := none }],
    matchRows := [{ id := "match-0", userAId := "Y", userBId := "X", active := true }],
    messages := [],
    nextId := 1 }

/-- C1: the like endpoint performs no existing-match check before
creating: starting from `dbC1`, `expressInterest X Y` finds the mutual
like and immediately creates a *second* match row for the pair {X, Y}
(stored as (X, Y)), returning it as a fresh match instead of returning
the existing row as an idempotent no-op. -/
theorem expressInterest_duplicates_match :
    (matchesForPair (expressInterest dbC1 "X" "Y" none).2 "X" "Y").length = 2 := by
  decide

/-! ### Sequential behaviour of the like endpoint (C3, C4) -/

theorem findLike_append_single (db : DB) (l : Like) (f t : String) :
    findLike { db with likes := db.likes ++ [l] } f t =
      ((findLike db f t).or (if l.fromId == f && l.toId == t then some l else none)) := by
  unfold findLike
  dsimp only
  rw [List.find?_append]
  congr 1
  cases h : (l.fromId == f && l.toId == t) <;> simp [List.find?, h]

/-- C3: for distinct existing users A and B with no prior like or match
between them in either direction, `expressInterest A B` succeeds with
`isMatch = false`, and the subsequent `expressInterest B A` succeeds with
`isMatch = true`, after which exactly one active match row exists for the
unordered pair {A, B}. -/
theorem mutual_interest_closure (db : DB) (A B : String)
    (hAB : A ≠ B) (hA : A ∈ db.users) (hB : B ∈ db.users)
    (hlAB : findLike db A B = none) (hlBA : findLike db B A = none)
    (hnm : ∀ m ∈ db.matchRows,
      ¬((m.userAId = A ∧ m.userBId = B) ∨ (m.userAId = B ∧ m.userBId = A))) :
    ∃ l1 db1 l2 m db2,
      expressInterest db A B none = (.liked l1, db1) ∧
      expressInterest db1 B A none = (.matched l2 m, db2) ∧
      (matchesForPair db2 A B).length = 1 := by
  have hne : (A == B) = false := beq_eq_false_iff_ne.mpr hAB
  have hne' : (B == A) = false := beq_eq_false_iff_ne.mpr (Ne.symm hAB)
  have hAc : db.users.contains A = true := List.elem_eq_true_of_mem hA
  have hBc : db.users.contains B = true := List.elem_eq_true_of_mem hB
  have hAA : (A == A) = true := beq_self_eq_true A
  have hBB : (B == B) = true := beq_self_eq_true B
  set likeAB : Like := { fromId := A, toId := B, message := none } with hlikeAB
  set db1 : DB := { db with likes := db.likes ++ [likeAB] } with hdb1
  have step1 : expressInterest db A B none = (.liked likeAB, db1) := by
    unfold expressInterest
    rw [hne, hBc]
    have h1 : findLike db1 B A = none := by
      rw [findLike_append_single]
      simp [hlBA, hne]
    simp only [Bool.false_eq_true, if_false, Bool.not_true, hlAB, Option.isSome_none,
      h1, if_true]
  set likeBA : Like := { fromId := B, toId := A, message := none } with hlikeBA
  set mBA : MatchRow :=
    { id := "match-" ++ toString db1.nextId, userAId := B, userBId := A,
      active := true } with hmBA
  set db2 : DB :=
    { db1 with
      likes := db1.likes ++ [likeBA],
      matchRows := db1.matchRows ++ [mBA],
      nextId := db1.nextId + 1 } with hdb2
  have h2 : findLike db1 B A = none := by
    rw [findLike_append_single]
    simp [hlBA, hne]
  have h3 : findLike { db1 with likes := db1.likes ++ [likeBA] } A B = some likeAB := by
    rw [findLike_append_single]
    have : findLike db1 A B = some likeAB := by
      rw [findLike_append_single]
      simp [hlAB, hAA, hBB]
    simp [this]
  have step2 : expressInterest db1 B A none = (.matched likeBA mBA, db2) := by
    unfold expressInterest
    rw [hne']
    have hAc1 : db1.users.contains A = true := hAc
    rw [hAc1]
    simp only [Bool.false_eq_true, if_false, Bool.not_true, h2, Option.isSome_none, h3]
    simp [hdb2, hmBA]
  refine ⟨likeAB, db1, likeBA, mBA, db2, step1, step2, ?_⟩
  unfold matchesForPair
  rw [hdb2]
  dsimp only
  rw [List.filter_append]
  have hold : db1.matchRows.filter (fun m =>
      m.active && ((m.userAId == A && m.userBId == B) ||
                   (m.userAId == B && m.userBId == A))) = [] := by
    apply List.filter_eq_nil_iff.mpr
    intro m hm
    have := hnm m hm
    simp only [Bool.and_eq_true, Bool.or_eq_true, beq_iff_eq]
    rintro ⟨-, ⟨h1, h2⟩ | ⟨h1, h2⟩⟩
    · exact this (Or.inl ⟨h1, h2⟩)
    · exact this (Or.inr ⟨h1, h2⟩)
  rw [hold]
  simp [hmBA, hAA, hBB]

/-- C4: when a like from A to B is already stored, `expressInterest A B`
fails with the duplicate-interest error and leaves the store unchanged;
hence calling it twice from a clean state stores exactly one A→B edge. -/
theorem duplicate_interest_rejected (db : DB) (A B : String)
    (hAB : A ≠ B) (hB : B ∈ db.users) (hlAB : findLike db A B = none) :
    expressInterest ((expressInterest db A B none).2) A B none =
      (.duplicateInterest, (expressInterest db A B none).2) ∧
    (likesFromTo (expressInterest db A B none).2 A B).length = 1 := by
  have hne : (A == B) = false := beq_eq_false_iff_ne.mpr hAB
  have hBc : db.users.contains B = true := List.elem_eq_true_of_mem hB
  have hAA : (A == A) = true := beq_self_eq_true A
  have hBB : (B == B) = true := beq_self_eq_true B
  set likeAB : Like := { fromId := A, toId := B, message := none } with hlikeAB
  have hlikes : (expressInterest db A B none).2.likes = db.likes ++ [likeAB] := by
    unfold expressInterest
    rw [hne, hBc]
    simp only [Bool.false_eq_true, if_false, Bool.not_true, hlAB, Option.isSome_none]
    split_ifs <;> rfl
  have husers : (expressInterest db A B none).2.users = db.users := by
    unfold expressInterest
    rw [hne, hBc]
    simp only [Bool.false_eq_true, if_false, Bool.not_true, hlAB, Option.isSome_none]
    split_ifs <;> rfl
  have hfound : findLike (expressInterest db A B none).2 A B = some likeAB := by
    unfold findLike
    rw [hlikes, List.find?_append]
    have h0 : db.likes.find? (fun l => l.fromId == A && l.toId == B) = none := hlAB
    rw [h0]
    simp [hAA, hBB]
  constructor
  · conv_lhs => rw [expressInterest]
    rw [hne]
    rw [husers, hBc]
    simp [hfound]
  · unfold likesFromTo
    rw [hlikes, List.filter_append]
    have h0 : db.likes.filter (fun l => l.fromId == A && l.toId == B) = [] := by
      apply List.filter_eq_nil_iff.mpr
      intro l hl
      exact List.find?_eq_none.mp hlAB l hl
    rw [h0]
    simp [hAA, hBB]

/-! ### C2: the race between two `expressInterest` calls -/

/-- The storage-level admission check for inserting into `matches`: the
schema's only uniqueness constraint is `matches_userAId_userBId_key` on
the *ordered* pair ("userAId", "userBId"); an insert is rejected exactly
when a row with the same ordered pair already exists. -/
def matchInsertAllowed (rows : List MatchRow) (m : MatchRow) : Bool :=
  !(rows.any (fun e => e.userAId == m.userAId && e.userBId == m.userBId))

/-- Likewise for `likes`, unique on the ordered (fromId, toId)
(`likes_fromId_toId_key`). -/
def likeInsertAllowed (likes : List Like) (l : Like) : Bool :=
  !(likes.any (fun e => e.fromId == l.fromId && e.toId == l.toId))

/-- Final outcome of one racing `expressInterest` call. -/
inductive RaceOutcome where
  | selfErr
  | userErr
  | dupErr
  | likedNoMatch
  | matchedOk
  /-- a storage uniqueness violation surfaced; the handler has no
  conflict handling, so this is a 500, not "already matched". -/
  | constraintErr
deriving DecidableEq, Repr

/-- Program counter of one in-flight `expressInterest` call; each state
performs one atomic storage access of the handler. -/
inductive RPc where
  | selfCheck
  | userCheck
  | dupCheck
  | likeCreate
  | mutualCheck
  | matchCreate
  | finished (r : RaceOutcome)
deriving DecidableEq, Repr

/-- One in-flight `expressInterest(fromId, toId)` call. -/
structure RThread where
  fromId : String
  toId : String
  pc : RPc
deriving DecidableEq, Repr

/-- One atomic step of a racing `expressInterest` call, mirroring the
handler's storage accesses in order; creates go through the schema's
ordered-pair uniqueness checks, and a violation finishes the call with
`constraintErr` (the handler catches it only as a generic 500). -/
def rStep (db : DB) (t : RThread) : DB × RThread :=
  match t.pc with
  | .selfCheck =>
      (db, { t with pc := if t.fromId == t.toId then .finished .selfErr else .userCheck })
  | .userCheck =>
      (db, { t with pc := if db.users.contains t.toId then .dupCheck else .finished .userErr })
  | .dupCheck =>
      (db, { t with pc := if (findLike db t.fromId t.toId).isSome then
        (.finished .dupErr) else .likeCreate })
  | .likeCreate =>
      let l : Like := { fromId := t.fromId, toId := t.toId, message := none }
      if likeInsertAllowed db.likes l then
        ({ db with likes := db.likes ++ [l] }, { t with pc := .mutualCheck })
      else (db, { t with pc := .finished .constraintErr })
  | .mutualCheck =>
      (db, { t with pc := if (findLike db t.toId t.fromId).isSome then
        .matchCreate else (.finished .likedNoMatch) })
  | .matchCreate =>
      let m : MatchRow :=
        { id := "match-" ++ toString db.nextId, userAId := t.fromId,
          userBId := t.toId, active := true }
      if matchInsertAllowed db.matchRows m then
        ({ db with matchRows := db.matchRows ++ [m], nextId := db.nextId + 1 },
          { t with pc := .finished .matchedOk })
      else (db, { t with pc := .finished .constraintErr })
  | .finished _ => (db, t)

/-- Run two racing calls under a schedule: `true` steps the first thread,
`false` the second. -/
def runSchedule : List Bool → DB → RThread → RThread → DB × RThread × RThread
  | [], db, t1, t2 => (db, t1, t2)
  | b :: rest, db, t1, t2 =>
      if b then
        let s := rStep db t1
        runSchedule rest s.1 s.2 t2
      else
        let s := rStep db t2
        runSchedule rest s.1 t1 s.2

/-- Initial store for the race: users A and B, no likes, no matches. -/
def dbRace : DB :=
  { users := ["A", "B"], likes := [], matchRows := [], messages := [], nextId := 0 }

/-- The interleaving in which both calls pass their duplicate checks and
create their likes before either mutual check runs. -/
def raceSchedule : List Bool :=
  [true, true, true, true, false, false, false, false, true, true, false, false]

/-- The race's final state. -/
def raceFinal : DB × RThread × RThread :=
  runSchedule raceSchedule dbRace
    { fromId := "A", toId := "B", pc := .selfCheck }
    { fromId := "B", toId := "A", pc := .selfCheck }

/-- C2: the code does not satisfy the claim. Under the interleaving
`raceSchedule`, both racing calls commit their likes before either mutual
check, both then find the reverse like and both create a match row —
the rows (A, B) and (B, A) differ in storage order, so the schema's
ordered-pair uniqueness constraint admits both (second conjunct), and
both calls report a successful match (third conjunct): two active match
rows remain for the pair {A, B}. -/
theorem race_two_match_rows :
    (matchesForPair raceFinal.1 "A" "B").length = 2 ∧
    matchInsertAllowed
      [{ id := "match-0", userAId := "A", userBId := "B", active := true }]
      { id := "match-1", userAId := "B", userBId := "A", active := true } = true ∧
    raceFinal.2.1.pc = .finished .matchedOk ∧
    raceFinal.2.2.pc = .finished .matchedOk := by
  decide

/-! ### The conversation gate (C5) -/

/-- `prisma.match.findFirst({ where: { id: matchId, OR: [{ userAId:
user.id }, { userBId: user.id }], active: true } })`. -/
def findMatchForUser (db : DB) (matchId userId : String) : Option MatchRow :=
  db.matchRows.find? (fun m =>
    m.id == matchId && (m.userAId == userId || m.userBId == userId) && m.active)

/-- Outcome of `GET /api/matches/[matchId]/messages`. -/
inductive ListMessagesResult where
  | notFound
  | ok (msgs : List Message)
deriving DecidableEq, Repr

/-- The GET handler: gate check (404 `Match not found` on failure), then
the match's messages ordered by creation time ascending (rows are kept in
insertion order). -/
def listMessages (db : DB) (userId matchId : String) : ListMessagesResult :=
  match findMatchForUser db matchId userId with
  | none => .notFound
  | some _ => .ok (db.messages.filter (fun m => m.matchId == matchId))

/-- Outcome of `POST /api/matches/[matchId]/messages`. -/
inductive PostMessageResult where
  /-- the zod parse of `{ body: string (1..1000) }` failed (thrown before
  the gate check, caught as a 500). -/
  | invalidBody
  /-- 404 `Match not found`. -/
  | notFound
  | ok (msg : Message)
deriving DecidableEq, Repr

/-- The POST handler: body validation first (the handler parses the body
before the gate check), then the same gate check, then the message is
persisted. -/
def postMessage (db : DB) (userId matchId body : String) : PostMessageResult × DB :=
  if body.length < 1 ∨ body.length > 1000 then (.invalidBody, db)
  else
    match findMatchForUser db matchId userId with
    | none => (.notFound, db)
    | some _ =>
        let msg : Message := { matchId := matchId, senderId := userId, body := body }
        (.ok msg, { db with messages := db.messages ++ [msg] })

/-- The gate's find succeeds exactly when an active match row with this
id has the user as one of its two participants. -/
theorem findMatchForUser_isSome_iff (db : DB) (mId u : String) :
    (findMatchForUser db mId u).isSome = true ↔
      ∃ m ∈ db.matchRows, m.id = mId ∧ (m.userAId = u ∨ m.userBId = u) ∧
        m.active = true := by
  unfold findMatchForUser
  rw [List.find?_isSome]
  constructor
  · rintro ⟨m, hm, hp⟩
    simp only [Bool.and_eq_true, Bool.or_eq_true, beq_iff_eq] at hp
    exact ⟨m, hm, hp.1.1, hp.1.2, hp.2⟩
  · rintro ⟨m, hm, h1, h2, h3⟩
    refine ⟨m, hm, ?_⟩
    simp only [Bool.and_eq_true, Bool.or_eq_true, beq_iff_eq]
    exact ⟨⟨h1, h2⟩, h3⟩

/-- C5: with a well-formed body, `listMessages` and `postMessage` succeed
exactly when an active match with that id has the caller as one of its
two participants; for anyone else — a third user or an inactive match —
both return the not-found outcome (not an empty list, not a forbidden
error) and `postMessage` leaves the store unchanged, persisting no
message. -/
theorem conversation_gate (db : DB) (u mId body : String)
    (hbody : 1 ≤ body.length ∧ body.length ≤ 1000) :
    ((∃ m ∈ db.matchRows, m.id = mId ∧ (m.userAId = u ∨ m.userBId = u) ∧
        m.active = true) →
      (∃ msgs, listMessages db u mId = .ok msgs) ∧
      (∃ msg db2, postMessage db u mId body = (.ok msg, db2))) ∧
    ((¬ ∃ m ∈ db.matchRows, m.id = mId ∧ (m.userAId = u ∨ m.userBId = u) ∧
        m.active = true) →
      listMessages db u mId = .notFound ∧
      postMessage db u mId body = (.notFound, db)) := by
  have hb : ¬ (body.length < 1 ∨ body.length > 1000) := by omega
  constructor
  · intro hex
    obtain ⟨m, hm⟩ := Option.isSome_iff_exists.mp
      ((findMatchForUser_isSome_iff db mId u).mpr hex)
    constructor
    · exact ⟨_, by unfold listMessages; rw [hm]⟩
    · refine ⟨{ matchId := mId, senderId := u, body := body },
        { db with messages :=
          db.messages ++ [{ matchId := mId, senderId := u, body := body }] }, ?_⟩
      unfold postMessage
      rw [if_neg hb, hm]
  · intro hnex
    have hnone : findMatchForUser db mId u = none := by
      rw [← Option.not_isSome_iff_eq_none]
      intro hs
      exact hnex ((findMatchForUser_isSome_iff db mId u).mp hs)
    constructor
    · unfold listMessages
      rw [hnone]
    · unfold postMessage
      rw [if_neg hb, hnone]

/-! ### The candidate feed (C9) -/

/-- `currentUser.likesSent.map(like => like.toId)`: the ids the viewer
has already expressed interest toward. -/
def likedUserIds (db : DB) (viewerId : String) : List String :=
  (db.likes.filter (fun l => l.fromId == viewerId)).map Like.toId

/-- The `GET /api/recommendations` handler: fetch users whose id is
neither the viewer's nor among the liked ids (`id: { not, notIn }`),
capped at 20 (`take: 20`), score each against the viewer, and sort by
score descending (`sort((a, b) => b.matchScore - a.matchScore)`).
`profiles` supplies each user's profile data from the store. -/
def recommendationsFeed (db : DB) (profiles : String → Profile) (viewerId : String) :
    List (String × Int × List String) :=
  let liked := likedUserIds db viewerId
  let recs := (db.users.filter (fun uid => uid != viewerId && !(liked.contains uid))).take 20
  let scored := recs.map (fun uid =>
    (uid, (calculateMatchScore (profiles viewerId) (profiles uid)).1,
      (calculateMatchScore (profiles viewerId) (profiles uid)).2))
  scored.mergeSort (fun a b => b.2.1 ≤ a.2.1)

/-- C9: no entry of the candidate feed is the viewer, and none is a user
the viewer has already liked. -/
theorem feed_exclusion (db : DB) (profiles : String → Profile) (viewerId : String)
    (c : String × Int × List String)
    (hc : c ∈ recommendationsFeed db profiles viewerId) :
    c.1 ≠ viewerId ∧ c.1 ∉ likedUserIds db viewerId := by
  unfold recommendationsFeed at hc
  rw [List.mem_mergeSort] at hc
  obtain ⟨uid, huid, rfl⟩ := List.mem_map.mp hc
  have h2 := List.mem_of_mem_take huid
  have h3 := (List.mem_filter.mp h2).2
  simp only [Bool.and_eq_true, bne_iff_ne, Bool.not_eq_true'] at h3
  refine ⟨h3.1, fun hmem => ?_⟩
  have hcont : (likedUserIds db viewerId).contains uid = true :=
    List.elem_eq_true_of_mem hmem
  rw [h3.2] at hcont
  exact Bool.false_ne_true hcont

/-! ### Concrete witnesses -/

/-- A clean two-user store. -/
def dbSeqW : DB :=
  { users := ["A", "B"], likes := [], matchRows := [], messages := [], nextId := 0 }

theorem mutual_interest_closure_witness :
    ∃ l1 db1 l2 m db2,
      expressInterest dbSeqW "A" "B" none = (.liked l1, db1) ∧
      expressInterest db1 "B" "A" none = (.matched l2 m, db2) ∧
      (matchesForPair db2 "A" "B").length = 1 :=
  mutual_interest_closure dbSeqW "A" "B" (by decide) (by decide) (by decide)
    rfl rfl (by decide)

theorem duplicate_interest_rejected_witness :
    expressInterest ((expressInterest dbSeqW "A" "B" none).2) "A" "B" none =
      (.duplicateInterest, (expressInterest dbSeqW "A" "B" none).2) ∧
    (likesFromTo (expressInterest dbSeqW "A" "B" none).2 "A" "B").length = 1 :=
  duplicate_interest_rejected dbSeqW "A" "B" (by decide) (by decide) rfl

/-- A store with one active match between A and B. -/
def dbGateW : DB :=
  { users := ["A", "B", "C"],
    likes := [],
    matchRows := [{ id := "match-0", userAId := "A", userBId := "B", active := true }],
    messages := [],
    nextId := 1 }

theorem conversation_gate_witness :
    listMessages dbGateW "C" "match-0" = .notFound ∧
    postMessage dbGateW "C" "match-0" "hello" = (.notFound, dbGateW) :=
  (conversation_gate dbGateW "C" "match-0" "hello" (by decide)).2 (by decide)

/-- An empty profile for the feed witness. -/
def pEmptyW : Profile :=
  { offers := [], lookingFor := [], skills := [], location := none,
    availability := none, bio := none, headline := none }

/-- The store for the feed witness: viewer A, candidate B, no likes. -/
def dbFeedW : DB :=
  { users := ["A", "B"], likes := [], matchRows := [], messages := [], nextId := 0 }

theorem feed_exclusion_witness :
    ("B", (calculateMatchScore pEmptyW pEmptyW).1,
        (calculateMatchScore pEmptyW pEmptyW).2).1 ≠ "A" ∧
    ("B", (calculateMatchScore pEmptyW pEmptyW).1,
        (calculateMatchScore pEmptyW pEmptyW).2).1 ∉ likedUserIds dbFeedW "A" :=
  feed_exclusion dbFeedW (fun _ => pEmptyW) "A" _ (by
    unfold recommendationsFeed likedUserIds dbFeedW
    simp [List.mergeSort])

end Matchmaker
